import Mathlib

/-!
Shallow embedding of `src/client/public.py` (instagrapi's unauthenticated
public-API client) and proofs about its retry dispatcher, single-attempt
send, endpoint adapters and hashtag pagination.

The Python exceptions are modelled as an inductive type `PyExc`; the retry
loop `PublicRequest.public_request` is modelled as a function over an
abstract per-attempt outcome oracle, returning the final outcome together
with the number of `retries_timeout` sleeps performed and the number of
calls made to `_send_public_request`.
-/

set_option autoImplicit false

namespace Instagrapi

/-- Python exceptions that can flow through `public.py`.  The first ten
constructors model `ClientError` and its subclasses from
`instagrapi.exceptions`; the last three model built-in (non-`ClientError`)
exceptions that the dispatcher does not catch. -/
inductive PyExc where
  | clientLoginRequired (msg : String)
  | clientNotFoundError (msg : String)
  | clientBadRequestError (msg : String)
  | clientForbiddenError (msg : String)
  | clientThrottledError (msg : String)
  | clientConnectionError (msg : String)
  | clientJSONDecodeError (msg : String)
  | clientIncompleteReadError (msg : String)
  | clientGraphqlError (msg : String)
  | clientError (msg : String)
  | assertionError (msg : String)
  | attributeError (msg : String)
  | typeError (msg : String)
  deriving DecidableEq, Repr

namespace PyExc

/-- Python `str(e)`: the message carried by the exception. -/
def msg : PyExc → String
  | clientLoginRequired m => m
  | clientNotFoundError m => m
  | clientBadRequestError m => m
  | clientForbiddenError m => m
  | clientThrottledError m => m
  | clientConnectionError m => m
  | clientJSONDecodeError m => m
  | clientIncompleteReadError m => m
  | clientGraphqlError m => m
  | clientError m => m
  | assertionError m => m
  | attributeError m => m
  | typeError m => m

/-- Test `isinstance(e, ClientError)`: every constructor modelling the
`ClientError` hierarchy, and nothing else. -/
def isClientError : PyExc → Bool
  | assertionError _ => false
  | attributeError _ => false
  | typeError _ => false
  | _ => true

/-- Membership in the first `except` clause of `public_request`:
`except (ClientLoginRequired, ClientNotFoundError, ClientBadRequestError)`. -/
def isStopRetry : PyExc → Bool
  | clientLoginRequired _ => true
  | clientNotFoundError _ => true
  | clientBadRequestError _ => true
  | _ => false

/-- Test `isinstance(e, ClientConnectionError)`. -/
def isConnError : PyExc → Bool
  | clientConnectionError _ => true
  | _ => false

end PyExc

/-- Whether `small` starts the list `big` (character-by-character equality). -/
def listStarts : List Char → List Char → Bool
  | [], _ => true
  | _ :: _, [] => false
  | a :: as, b :: bs => a == b && listStarts as bs

/-- Whether `small` occurs somewhere inside `big` (as a contiguous run). -/
def listHasSub (small : List Char) : List Char → Bool
  | [] => listStarts small []
  | c :: cs => listStarts small (c :: cs) || listHasSub small cs

/-- Python's `small in big` for strings: substring containment. -/
def strIn (small big : String) : Bool :=
  listHasSub small.data big.data

/-- The SOCKS-proxy signature test of `public_request` (lines 71-76):
the exception is a `ClientConnectionError` and its message contains the
three literal substrings checked by the code. -/
def socksSig (e : PyExc) : Bool :=
  e.isConnError
    && strIn "SOCKSHTTPSConnectionPool" e.msg
    && strIn "Max retries exceeded with url" e.msg
    && strIn "Failed to establish a new connection" e.msg

/-- An exception on which the dispatcher retries: a `ClientError` that is
neither in the stop-retries clause nor carries the SOCKS signature. -/
def retryable (e : PyExc) : Bool :=
  e.isClientError && !e.isStopRetry && !socksSig e

/-- Outcome of a single `_send_public_request` attempt: a returned value
or a raised exception. -/
inductive SendResult (α : Type) where
  | ok (v : α)
  | exc (e : PyExc)
  deriving DecidableEq, Repr

/-- Whether an attempt's outcome is a retryable raised exception. -/
def SendResult.isRetryableExc {α : Type} : SendResult α → Bool
  | .ok _ => false
  | .exc e => retryable e

/-- How a call to `public_request` ends: a returned value, a raised
exception, or the implicit `None` returned when the `for` loop body is
never entered (`retries_count = 0`). -/
inductive PubOutcome (α : Type) where
  | ok (v : α)
  | raised (e : PyExc)
  | retNone
  deriving DecidableEq, Repr

/-- The `for iteration in range(retries_count)` loop of
`PublicRequest.public_request` (lines 59-82), parameterised by the outcome
of each `_send_public_request` attempt.  Returns the outcome together with
the number of `time.sleep(retries_timeout)` calls and the number of
attempts made. -/
def public_request_go {α : Type} (send : Nat → SendResult α)
    (retries_count iteration sleeps attempts : Nat) :
    PubOutcome α × Nat × Nat :=
  if h : iteration < retries_count then
    match send iteration with
    | .ok v => (.ok v, sleeps, attempts + 1)
    | .exc e =>
      if e.isStopRetry then
        (.raised e, sleeps, attempts + 1)
      else if e.isClientError then
        if socksSig e then
          (.raised e, sleeps, attempts + 1)
        else if iteration + 1 < retries_count then
          public_request_go send retries_count (iteration + 1) (sleeps + 1) (attempts + 1)
        else
          (.raised e, sleeps, attempts + 1)
      else
        (.raised e, sleeps, attempts + 1)
  else
    (.retNone, sleeps, attempts)
termination_by retries_count - iteration
decreasing_by exact Nat.sub_lt_sub_left h (Nat.lt_succ_self iteration)

/-- Model of `PublicRequest.public_request` (lines 44-82): the two `assert`
statements followed by the retry loop.  The second and third components of
the result are the number of `retries_timeout` sleeps and the number of
underlying send attempts. -/
def public_request {α : Type} (send : Nat → SendResult α)
    (retries_count retries_timeout : Nat) : PubOutcome α × Nat × Nat :=
  if retries_count ≤ 10 then
    if retries_timeout ≤ 600 then
      public_request_go send retries_count 0 0 0
    else
      (.raised (.assertionError "Retries timeout is too high"), 0, 0)
  else
    (.raised (.assertionError "Retries count is too high"), 0, 0)

/-! ### The session and the single-attempt send -/

/-- Python `dict.update`: entries of `upd` override entries of `base` with the same
key; keys of `upd` not present in `base` are appended. -/
def headersUpdate (base upd : List (String × String)) :
    List (String × String) :=
  base.map (fun kv =>
    match upd.find? (fun kv2 => kv2.1 == kv.1) with
    | some kv2 => (kv.1, kv2.2)
    | none => kv)
  ++ upd.filter (fun kv2 => !(base.any (fun kv => kv.1 == kv2.1)))

/-- Lookup of a header value by key. -/
def headerGet (hs : List (String × String)) (k : String) : Option String :=
  (hs.find? (fun kv => kv.1 == k)).map (fun kv => kv.2)

/-- The fixed default headers installed by `PublicRequest.__init__`
(lines 32-40). -/
def default_headers : List (String × String) :=
  [("Connection", "Keep-Alive"),
   ("Accept", "*/*"),
   ("Accept-Encoding", "gzip,deflate"),
   ("Accept-Language", "en-US"),
   ("User-Agent", "Mozilla/5.0 (Macintosh; Intel Mac OS X 10_13_6) AppleWebKit/605.1.15 (KHTML, like Gecko) Version/11.1.2 Safari/605.1.15")]

/-- The mutable per-client state: the request counter, the session's
current headers, and the configured pre-request self-throttle delay. -/
structure PubSession where
  requests_count : Nat
  headers : List (String × String)
  request_timeout : Nat
  deriving DecidableEq, Repr

/-- Model of `PublicRequest.__init__` (lines 30-42): fresh session with the default
headers and the given `request_timeout` (the Python default is 1). -/
def initSession (request_timeout : Nat) : PubSession :=
  { requests_count := 0
    headers := default_headers
    request_timeout := request_timeout }

/-- The response object produced by the HTTP library for one request:
status code, final URL, body text, declared `Content-Length` header (absent
or a number), count of bytes actually received (`response.raw.tell()`), and
the result of `response.json()` (`none` models a `JSONDecodeError`). -/
structure Response where
  status_code : Nat
  url : String
  text : String
  content_length : Option Nat
  raw_tell : Nat
  json : Option String
  deriving DecidableEq, Repr

/-- What the network does for the GET issued by `_send_public_request`:
either `requests.ConnectionError` (carrying the class name and message used
at line 153) or a response object. -/
inductive NetResult where
  | connError (cls msg : String)
  | resp (r : Response)
  deriving DecidableEq, Repr

/-- Value returned by a successful `_send_public_request`:
`response.json()` when `return_json` else `response.text`. -/
inductive PubValue where
  | text (s : String)
  | json (j : String)
  deriving DecidableEq, Repr

/-- Observable effects of one `_send_public_request` call: whether
`response.json()` was invoked, how many time-units of self-throttle sleep
were performed, which headers the session held when the request would be
issued, and whether an HTTP request actually went out. -/
structure SendEffects where
  json_attempted : Bool
  slept_throttle : Nat
  issued_headers : List (String × String)
  net_called : Bool
  deriving DecidableEq, Repr

/-- The `raise_for_status` translation in the `except requests.HTTPError`
handler (lines 137-150): 403, 400, 429, 404, else generic `ClientError`. -/
def classifyStatus (code : Nat) : PyExc :=
  if code == 403 then .clientForbiddenError "HTTPError 403"
  else if code == 400 then .clientBadRequestError "HTTPError 400"
  else if code == 429 then .clientThrottledError "HTTPError 429"
  else if code == 404 then .clientNotFoundError "HTTPError 404"
  else .clientError ("HTTPError " ++ toString code)

/-- Model of `PublicRequest._send_public_request` (lines 84-153).

Control flow of the source, in order: increment `requests_count`; merge a
truthy per-call `headers` dict into the session's headers (a persistent
`dict.update`); sleep `request_timeout` when it is non-zero; issue
`self.public.data(...)` when `data` is given (a method `requests.Session`
does not have, so Python raises `AttributeError`) else `self.public.get`;
translate `requests.ConnectionError`; compute
`int(response.headers.get("Content-Length"))` (a `TypeError` when the
header is absent); raise `ClientIncompleteReadError` when fewer bytes were
read; `raise_for_status` with the HTTP-status translation; finally return
`response.json()` or `response.text`, translating `JSONDecodeError` into
`ClientLoginRequired` (URL contains `/login/`) or `ClientJSONDecodeError`. -/
def send_public_request (s : PubSession) (net : NetResult)
    (data : Option (List (String × String)))
    (headers : Option (List (String × String))) (return_json : Bool) :
    PubSession × SendResult PubValue × SendEffects :=
  let s := { s with requests_count := s.requests_count + 1 }
  let s :=
    match headers with
    | some hs => if hs.isEmpty then s else { s with headers := headersUpdate s.headers hs }
    | none => s
  let throttle := s.request_timeout
  let eff : SendEffects :=
    { json_attempted := false
      slept_throttle := throttle
      issued_headers := s.headers
      net_called := false }
  match data with
  | some _ =>
    (s, .exc (.attributeError "Session object has no attribute data"), eff)
  | none =>
    match net with
    | .connError cls m =>
      (s, .exc (.clientConnectionError (cls ++ " " ++ m)), { eff with net_called := true })
    | .resp r =>
      let eff := { eff with net_called := true }
      match r.content_length with
      | none =>
        (s, .exc (.typeError "int() argument must be a string, not NoneType"), eff)
      | some expected_length =>
        if r.raw_tell < expected_length then
          (s, .exc (.clientIncompleteReadError
              ("Incomplete read (" ++ toString r.raw_tell ++ " bytes read, "
                ++ toString expected_length ++ " more expected)")), eff)
        else if 400 ≤ r.status_code ∧ r.status_code < 600 then
          (s, .exc (classifyStatus r.status_code), eff)
        else if return_json then
          match r.json with
          | some j => (s, .ok (.json j), { eff with json_attempted := true })
          | none =>
            if strIn "/login/" r.url then
              (s, .exc (.clientLoginRequired "JSONDecodeError"),
                { eff with json_attempted := true })
            else
              (s, .exc (.clientJSONDecodeError
                  ("JSONDecodeError while opening " ++ r.url)),
                { eff with json_attempted := true })
        else
          (s, .ok (.text r.text), eff)

/-! ### `public_graphql_request`: precondition and parameter building -/

/-- Python truthiness of an optional string argument (`None` and `""` are
falsy). -/
def truthyStr : Option String → Bool
  | none => false
  | some s => !s.isEmpty

/-- How a call to `public_graphql_request` starts (lines 176-205): whether
the `assert query_id or query_hash` fails, whether `public_request` is
reached, and the query parameters it would be sent with. -/
structure GqlStart where
  faulted : Bool
  request_issued : Bool
  request_params : List (String × String)
  deriving DecidableEq, Repr

/-- The precondition check and parameter assembly of
`public_graphql_request` up to and including its call to `public_request`.
`variables_json` stands for `json.dumps(variables, separators=(",", ":"))`. -/
def public_graphql_request_start (variables_json : String)
    (query_hash query_id : Option String)
    (params : Option (List (String × String))) : GqlStart :=
  if truthyStr query_id || truthyStr query_hash then
    let default_params := [("variables", variables_json)]
    let default_params :=
      match query_id with
      | some qid => if qid.isEmpty then default_params else default_params ++ [("query_id", qid)]
      | none => default_params
    let default_params :=
      match query_hash with
      | some qh => if qh.isEmpty then default_params else default_params ++ [("query_hash", qh)]
      | none => default_params
    let final_params :=
      match params with
      | some ps => if ps.isEmpty then default_params else headersUpdate ps default_params
      | none => default_params
    { faulted := false, request_issued := true, request_params := final_params }
  else
    { faulted := true, request_issued := false, request_params := [] }

/-! ### `hashtag_feed` pagination -/

/-- One page of `hashtag_info` data, as consumed by `hashtag_feed`
(lines 285-296): the `edge_hashtag_to_media` edges, the `end_cursor` and
`has_next_page` of its `page_info`. -/
structure HashtagPage where
  edges : List String
  end_cursor : Option String
  has_next_page : Bool
  deriving DecidableEq, Repr

/-- Concatenation of the edges of a list of pages. -/
def flatEdges : List HashtagPage → List String
  | [] => []
  | p :: ps => p.edges ++ flatEdges ps

/-- The `break` condition of the `hashtag_feed` loop (lines 290-293):
`not page_info["has_next_page"] or len(medias) >= count`. -/
def pageBreak (p : HashtagPage) (medias : List String) (count : Nat) : Bool :=
  !p.has_next_page || count ≤ medias.length

/-- The `while True` loop of `hashtag_feed` (lines 284-296), driven by the
successive pages the endpoint returns: extend `medias` with the page's
edges; break when the page has no next page or at least `count` medias are
collected; otherwise sleep once and continue.  `none` models the endpoint
failing to produce a page the loop asks for.  Returns the accumulated
medias and the number of `time.sleep(sleep)` calls. -/
def hashtag_feed_go (pages : List HashtagPage) (count : Nat)
    (medias : List String) (sleeps : Nat) : Option (List String × Nat) :=
  match pages with
  | [] => none
  | p :: rest =>
    let medias := medias ++ p.edges
    if pageBreak p medias count then
      some (medias, sleeps)
    else
      hashtag_feed_go rest count medias (sleeps + 1)

/-- Model of `HashtagPublic.hashtag_feed` (lines 280-298): run the pagination loop
and truncate the result to `count` items (`medias[:count]`). -/
def hashtag_feed (pages : List HashtagPage) (count : Nat) :
    Option (List String × Nat) :=
  (hashtag_feed_go pages count [] 0).map (fun ms => (ms.1.take count, ms.2))

/-! ### Helper lemmas about the retry loop -/

/-- One retryable failure advances the loop: iteration, sleep count and
attempt count each grow by one. -/
theorem public_request_go_step {α : Type} (send : Nat → SendResult α)
    (rc it sleeps attempts : Nat) (h1 : it + 1 < rc)
    (h2 : (send it).isRetryableExc = true) :
    public_request_go send rc it sleeps attempts
      = public_request_go send rc (it + 1) (sleeps + 1) (attempts + 1) := by
  rcases hsend : send it with v | e
  · rw [hsend] at h2
    simp [SendResult.isRetryableExc] at h2
  · rw [hsend] at h2
    simp only [SendResult.isRetryableExc] at h2
    have hr := h2
    simp only [retryable, Bool.and_eq_true, Bool.not_eq_true'] at hr
    obtain ⟨⟨hce, hstop⟩, hsocks⟩ := hr
    rw [public_request_go]
    simp [Nat.lt_of_succ_lt h1, h1, hsend, hce, hstop, hsocks]

/-- Lemma: `j` consecutive retryable failures starting at iteration `it` advance
the loop by `j` iterations, `j` sleeps and `j` attempts. -/
theorem public_request_go_skip {α : Type} (send : Nat → SendResult α)
    (rc it sleeps attempts j : Nat) (hj : it + j < rc)
    (herr : ∀ i, i < j → (send (it + i)).isRetryableExc = true) :
    public_request_go send rc it sleeps attempts
      = public_request_go send rc (it + j) (sleeps + j) (attempts + j) := by
  induction j generalizing it sleeps attempts with
  | zero => simp
  | succ j ih =>
    have h1 : it + 1 < rc := by omega
    have h0 : (send it).isRetryableExc = true := by
      have h := herr 0 (Nat.succ_pos j)
      simpa using h
    rw [public_request_go_step send rc it sleeps attempts h1 h0]
    have hrec := ih (it + 1) (sleeps + 1) (attempts + 1) (by omega)
      (fun i hi => by
        have h := herr (i + 1) (by omega)
        have he : it + (i + 1) = it + 1 + i := by omega
        rw [he] at h
        exact h)
    rw [hrec]
    have e1 : it + 1 + j = it + (j + 1) := by omega
    have e2 : sleeps + 1 + j = sleeps + (j + 1) := by omega
    have e3 : attempts + 1 + j = attempts + (j + 1) := by omega
    rw [e1, e2, e3]

/-! ### Claims about the retry dispatcher -/

/-- C1: if `_send_public_request` raises a retryable `ClientError` on
attempts `1..k-1` and succeeds on attempt `k` (with `1 ≤ k ≤ retries_count`
and the two assert preconditions satisfied), `public_request` returns the
attempt-`k` result, sleeps `retries_timeout` exactly `k - 1` times, and
makes exactly `k` send attempts. -/
theorem C1_transient_then_success {α : Type} (send : Nat → SendResult α)
    (rc rt k : Nat) (v : α)
    (hk1 : 1 ≤ k) (hk : k ≤ rc) (hrc : rc ≤ 10) (hrt : rt ≤ 600)
    (herr : ∀ i, i < k - 1 → (send i).isRetryableExc = true)
    (hok : send (k - 1) = .ok v) :
    public_request send rc rt = (.ok v, k - 1, k) := by
  unfold public_request
  rw [if_pos hrc, if_pos hrt]
  have hskip := public_request_go_skip send rc 0 0 0 (k - 1) (by omega)
    (fun i hi => by simpa using herr i hi)
  simp only [Nat.zero_add] at hskip
  rw [hskip, public_request_go]
  have hlt : k - 1 < rc := by omega
  have hkk : k - 1 + 1 = k := by omega
  simp [hlt, hok, hkk]

/-- Attempt sequence for the C1 witness: two transient connection errors
followed by success. -/
def sendC1 : Nat → SendResult String := fun i =>
  if i < 2 then .exc (.clientConnectionError "Connection reset by peer") else .ok "payload"

/-- C1 witness: with two transient failures then success on attempt 3 out
of `retries_count = 5`, the dispatcher returns the success value after
exactly 2 sleeps and 3 attempts. -/
theorem C1_transient_then_success_witness :
    public_request sendC1 5 10 = (.ok "payload", 2, 3) :=
  C1_transient_then_success sendC1 5 10 3 "payload"
    (by decide) (by decide) (by decide) (by decide)
    (fun i hi => by
      interval_cases i <;> decide)
    (by decide)

/-- C2: if the first attempt raises `ClientLoginRequired`,
`ClientNotFoundError` or `ClientBadRequestError`, `public_request` makes
exactly one send attempt, sleeps zero times, and propagates that error,
for every `retries_count ≥ 1` (within the asserted preconditions). -/
theorem C2_stop_errors_no_retry {α : Type} (send : Nat → SendResult α)
    (rc rt : Nat) (e : PyExc)
    (hrc1 : 1 ≤ rc) (hrc : rc ≤ 10) (hrt : rt ≤ 600)
    (h0 : send 0 = .exc e) (hstop : e.isStopRetry = true) :
    public_request send rc rt = (.raised e, 0, 1) := by
  unfold public_request
  rw [if_pos hrc, if_pos hrt, public_request_go]
  have h : (0 : Nat) < rc := hrc1
  simp [h, h0, hstop]

/-- C2 witness: a `ClientLoginRequired` on the first of 7 allowed attempts
is propagated after exactly one attempt and no sleep. -/
theorem C2_stop_errors_no_retry_witness :
    public_request (fun _ : Nat => (.exc (.clientLoginRequired "login wall") : SendResult String)) 7 10
      = (.raised (.clientLoginRequired "login wall"), 0, 1) :=
  C2_stop_errors_no_retry _ 7 10 (.clientLoginRequired "login wall")
    (by decide) (by decide) (by decide) rfl (by decide)

/-- C10: with `retries_count = 0` (which satisfies the `≤ 10` assert), the
loop body never runs: `public_request` makes zero attempts, sleeps zero
times, raises nothing and returns `None`. -/
theorem C10_zero_retries_returns_none {α : Type} (send : Nat → SendResult α)
    (rt : Nat) (hrt : rt ≤ 600) :
    public_request send 0 rt = (.retNone, 0, 0) := by
  unfold public_request
  rw [if_pos (by omega), if_pos hrt, public_request_go]
  simp

/-- C10 witness: concrete instance with an oracle that would succeed were
it ever consulted. -/
theorem C10_zero_retries_returns_none_witness :
    public_request (fun _ : Nat => (.ok "never sent" : SendResult String)) 0 10
      = (.retNone, 0, 0) :=
  C10_zero_retries_returns_none _ 10 (by decide)

/-! ### Claims about the single-attempt send -/

/-- C4: every call to `_send_public_request` increments the session's
`requests_count` by exactly one, whatever the outcome (success, typed
error, or any other failure) — the increment is the first statement of the
method. -/
theorem C4_requests_count_increment (s : PubSession) (net : NetResult)
    (data headers : Option (List (String × String))) (rj : Bool) :
    (send_public_request s net data headers rj).1.requests_count
      = s.requests_count + 1 := by
  unfold send_public_request
  rcases headers with _ | hs <;> rcases data with _ | d <;>
    rcases net with ⟨cls, m⟩ | r <;>
    simp only [] <;>
    repeat' first
      | rfl
      | split <;> try rfl

/-- C5: whenever the declared `Content-Length` exceeds the bytes actually
received, `_send_public_request` raises `ClientIncompleteReadError` and
`response.json()` is never invoked, even when `return_json` is requested. -/
theorem C5_incomplete_read_before_json (s : PubSession) (r : Response)
    (cl : Nat) (headers : Option (List (String × String))) (rj : Bool)
    (hcl : r.content_length = some cl) (hlt : r.raw_tell < cl) :
    (send_public_request s (.resp r) none headers rj).2.1
        = .exc (.clientIncompleteReadError
            ("Incomplete read (" ++ toString r.raw_tell ++ " bytes read, "
              ++ toString cl ++ " more expected)"))
      ∧ (send_public_request s (.resp r) none headers rj).2.2.json_attempted = false := by
  unfold send_public_request
  rcases headers with _ | hs <;> simp [hcl, hlt]

/-- A truncated response: 100 bytes declared, 40 received. -/
def respC5 : Response :=
  { status_code := 200
    url := "https://www.instagram.com/explore/tags/x/"
    text := "truncated"
    content_length := some 100
    raw_tell := 40
    json := some "obj" }

/-- C5 witness: declared `Content-Length: 100` with 40 bytes read and
`return_json = true` yields `ClientIncompleteReadError` without any JSON
decode. -/
theorem C5_incomplete_read_before_json_witness :
    (send_public_request (initSession 1) (.resp respC5) none none true).2.1
        = .exc (.clientIncompleteReadError "Incomplete read (40 bytes read, 100 more expected)")
      ∧ (send_public_request (initSession 1) (.resp respC5) none none true).2.2.json_attempted = false :=
  C5_incomplete_read_before_json (initSession 1) respC5 100 none true rfl (by decide)

/-- C3: a `ClientConnectionError` carrying the SOCKS-proxy signature is
propagated immediately (no sleep, one attempt) no matter how many attempts
remain, while a `ClientConnectionError` without the signature is treated as
transient: it is retried after one sleep, and a success on the second
attempt is returned. -/
theorem C3_socks_vs_transient_conn {α : Type} (rc rt : Nat)
    (hrc : rc ≤ 10) (hrt : rt ≤ 600) :
    (∀ (send : Nat → SendResult α) (m : String), 1 ≤ rc →
        send 0 = .exc (.clientConnectionError m) →
        socksSig (.clientConnectionError m) = true →
        public_request send rc rt = (.raised (.clientConnectionError m), 0, 1))
    ∧ (∀ (send : Nat → SendResult α) (m : String) (v : α), 2 ≤ rc →
        send 0 = .exc (.clientConnectionError m) →
        socksSig (.clientConnectionError m) = false →
        send 1 = .ok v →
        public_request send rc rt = (.ok v, 1, 2)) := by
  constructor
  · intro send m h1 h0 hsig
    unfold public_request
    rw [if_pos hrc, if_pos hrt, public_request_go]
    have h : (0 : Nat) < rc := h1
    simp [h, h0, hsig, PyExc.isStopRetry, PyExc.isClientError]
  · intro send m v h2 h0 hsig hok
    unfold public_request
    rw [if_pos hrc, if_pos hrt, public_request_go]
    have h : (0 : Nat) < rc := by omega
    have h1 : 0 + 1 < rc := by omega
    simp only [h, dif_pos, h0, PyExc.isStopRetry, PyExc.isClientError, hsig,
      Bool.false_eq_true, if_false, if_true, h1, if_pos, Nat.zero_add]
    rw [public_request_go]
    have h1' : (1 : Nat) < rc := by omega
    simp [h1', hok]

/-- A connection-error message matching all three SOCKS-signature
substrings checked at lines 73-75. -/
def socksMsgC3 : String :=
  "SOCKSHTTPSConnectionPool(host=api, port=443): Max retries exceeded with url: /x (Failed to establish a new connection)"

/-- C3 witness: the SOCKS-signature error is raised at once (one attempt,
no sleep); a plain connection error is retried and the second attempt's
success is returned (two attempts, one sleep). -/
theorem C3_socks_vs_transient_conn_witness :
    public_request (fun _ : Nat => (.exc (.clientConnectionError socksMsgC3) : SendResult String)) 5 10
        = (.raised (.clientConnectionError socksMsgC3), 0, 1)
      ∧ public_request
          (fun i : Nat => if i = 0
            then (.exc (.clientConnectionError "ConnectionError timeout") : SendResult String)
            else .ok "second try")
          5 10
        = (.ok "second try", 1, 2) :=
  ⟨(C3_socks_vs_transient_conn 5 10 (by decide) (by decide)).1 _ socksMsgC3
      (by decide) rfl (by decide),
   (C3_socks_vs_transient_conn 5 10 (by decide) (by decide)).2 _
      "ConnectionError timeout" "second try" (by decide) rfl (by decide) rfl⟩

/-! ### Claims about `public_graphql_request` -/

/-- C6 counterexample: supplying BOTH `query_id` and `query_hash` does not
fault — the `assert query_id or query_hash` passes and the network request
is issued, contradicting the claim that supplying both faults before any
network call. -/
theorem C6_counterexample_both_supplied :
    (public_graphql_request_start "vars" (some "hashValue") (some "17888483320059182") none).faulted = false
      ∧ (public_graphql_request_start "vars" (some "hashValue") (some "17888483320059182") none).request_issued = true := by
  constructor <;> rfl

/-- C6 amended: `public_graphql_request` requires AT LEAST one truthy
`query_id`/`query_hash`: it faults (before any network request) exactly
when neither is truthy, and issues the request exactly when it does not
fault — supplying both is accepted. -/
theorem C6_amended_at_least_one (vj : String) (qh qi : Option String)
    (ps : Option (List (String × String))) :
    ((public_graphql_request_start vj qh qi ps).faulted = true
        ↔ (truthyStr qi = false ∧ truthyStr qh = false))
      ∧ (public_graphql_request_start vj qh qi ps).request_issued
          = !(public_graphql_request_start vj qh qi ps).faulted := by
  unfold public_graphql_request_start
  rcases h1 : truthyStr qi <;> rcases h2 : truthyStr qh <;> simp [h1, h2]

/-! ### Claims about the error taxonomy and headers -/

/-- A well-formed 200 response used by several concrete evaluations. -/
def okResp : Response :=
  { status_code := 200
    url := "https://www.instagram.com/explore/tags/x/"
    text := "body"
    content_length := some 4
    raw_tell := 4
    json := some "obj" }

/-- C8, at the failing input: a call with `data` supplied (the POST path,
line 94) raises an `AttributeError` — `requests.Session` has no method
`data` — which is not a `ClientError`, and `public_request` propagates it
to the caller untyped, contradicting the claim that every failure
surfaces as a typed taxonomy error. -/
theorem C8_post_untyped_attribute_error :
    (send_public_request (initSession 1) (.resp okResp)
        (some [("signed_body", "payload")]) none true).2.1
        = .exc (.attributeError "Session object has no attribute data")
      ∧ PyExc.isClientError (.attributeError "Session object has no attribute data") = false
      ∧ public_request
          (fun _ : Nat =>
            (.exc (.attributeError "Session object has no attribute data") : SendResult PubValue))
          10 10
        = (.raised (.attributeError "Session object has no attribute data"), 0, 1) := by
  refine ⟨rfl, rfl, ?_⟩
  unfold public_request
  rw [if_pos (by omega), if_pos (by omega), public_request_go]
  have h1 : PyExc.isStopRetry (.attributeError "Session object has no attribute data") = false := rfl
  have h2 : PyExc.isClientError (.attributeError "Session object has no attribute data") = false := rfl
  simp [h1, h2]

/-- C9 counterexample: after one call overriding `User-Agent` via the
per-call `headers` argument, a later call made WITHOUT a headers argument
is issued with the overridden `User-Agent`, not the constructor's default —
the per-call argument does not affect only that call. -/
theorem C9_counterexample_persistent_headers :
    headerGet
        (send_public_request
          (send_public_request (initSession 1) (.resp okResp) none
            (some [("User-Agent", "CustomAgent")]) false).1
          (.resp okResp) none none false).2.2.issued_headers
        "User-Agent"
      = some "CustomAgent"
      ∧ headerGet default_headers "User-Agent" ≠ some "CustomAgent" := by
  constructor
  · rfl
  · decide

/-- C9 amended: the constructor installs the fixed default headers; a call
without a `headers` argument is issued with the session's CURRENT headers
and leaves them unchanged; a call with a non-empty `headers` argument
merges it into the session's headers, both for that request and
persistently for later calls. -/
theorem C9_amended_headers_merge (s : PubSession) (net : NetResult) (rj : Bool) :
    (initSession 1).headers = default_headers
      ∧ ((send_public_request s net none none rj).2.2.issued_headers = s.headers
          ∧ (send_public_request s net none none rj).1.headers = s.headers)
      ∧ (∀ hs : List (String × String), hs.isEmpty = false →
          (send_public_request s net none (some hs) rj).2.2.issued_headers
              = headersUpdate s.headers hs
            ∧ (send_public_request s net none (some hs) rj).1.headers
              = headersUpdate s.headers hs) := by
  refine ⟨rfl, ?_, ?_⟩
  · unfold send_public_request
    rcases net with ⟨cls, m⟩ | r <;>
      simp only [] <;>
      repeat' first
        | rfl
        | constructor
        | split <;> try rfl
  · intro hs hne
    unfold send_public_request
    rcases net with ⟨cls, m⟩ | r <;>
      simp only [hne, Bool.false_eq_true, if_false] <;>
      repeat' first
        | rfl
        | constructor
        | split <;> try rfl

/-- C9 amended witness: overriding `User-Agent` on a fresh session issues
and persists the merged headers. -/
theorem C9_amended_headers_merge_witness :
    (initSession 1).headers = default_headers
      ∧ (send_public_request (initSession 1) (.resp okResp) none
            (some [("User-Agent", "CustomAgent")]) false).2.2.issued_headers
          = headersUpdate default_headers [("User-Agent", "CustomAgent")] :=
  ⟨(C9_amended_headers_merge (initSession 1) (.resp okResp) false).1,
   ((C9_amended_headers_merge (initSession 1) (.resp okResp) false).2.2
      [("User-Agent", "CustomAgent")] rfl).1⟩

/-! ### `hashtag_feed` pagination proofs -/

/-- The starting sleep counter only shifts the reported sleep count. -/
theorem hashtag_feed_go_shift (pages : List HashtagPage) (count : Nat)
    (medias : List String) (sleeps : Nat) :
    hashtag_feed_go pages count medias sleeps
      = (hashtag_feed_go pages count medias 0).map (fun ms => (ms.1, ms.2 + sleeps)) := by
  induction pages generalizing medias sleeps with
  | nil => rfl
  | cons p rest ih =>
    simp only [hashtag_feed_go]
    by_cases hb : pageBreak p (medias ++ p.edges) count
    · simp [hb]
    · rw [if_neg hb, if_neg hb, ih (medias ++ p.edges) (sleeps + 1),
        ih (medias ++ p.edges) 1]
      cases hashtag_feed_go rest count (medias ++ p.edges) 0 with
      | none => rfl
      | some ms =>
        simp only [Option.map_some', Option.some.injEq, Prod.mk.injEq]
        exact ⟨by trivial, by omega⟩

/-- Full characterisation of the pagination loop when it terminates with
`s` sleeps: it consumed exactly the pages `0..s`, the result is the
accumulator followed by their concatenated edges, every page before the
last was a non-final page fetched while fewer than `count` medias were
collected, and the last page either had no next page or pushed the total
to at least `count`. -/
theorem hashtag_feed_go_spec (pages : List HashtagPage) (count : Nat) :
    ∀ (medias m : List String) (s : Nat),
      hashtag_feed_go pages count medias 0 = some (m, s) →
      s < pages.length
        ∧ m = medias ++ flatEdges (pages.take (s + 1))
        ∧ (∀ j, j < s → (medias ++ flatEdges (pages.take (j + 1))).length < count
              ∧ (pages.get? j).map HashtagPage.has_next_page = some true)
        ∧ ((pages.get? s).map HashtagPage.has_next_page = some false
            ∨ count ≤ m.length) := by
  induction pages with
  | nil =>
    intro medias m s h
    simp [hashtag_feed_go] at h
  | cons p rest ih =>
    intro medias m s h
    simp only [hashtag_feed_go] at h
    by_cases hb : pageBreak p (medias ++ p.edges) count
    · rw [if_pos hb] at h
      simp only [Option.some.injEq, Prod.mk.injEq] at h
      obtain ⟨hm, hs⟩ := h
      subst hm
      subst hs
      refine ⟨by simp, by simp [flatEdges], fun j hj => absurd hj (by omega), ?_⟩
      simp only [pageBreak, Bool.or_eq_true, Bool.not_eq_true', decide_eq_true_eq] at hb
      rcases hb with hb | hb
      · exact Or.inl (by simp [hb])
      · exact Or.inr hb
    · rw [if_neg hb] at h
      rw [hashtag_feed_go_shift rest count (medias ++ p.edges) 1] at h
      cases hgo : hashtag_feed_go rest count (medias ++ p.edges) 0 with
      | none => rw [hgo] at h; simp at h
      | some ms =>
        rw [hgo] at h
        simp only [Option.map_some', Option.some.injEq, Prod.mk.injEq] at h
        obtain ⟨hm, hs⟩ := h
        obtain ⟨ih1, ih2, ih3, ih4⟩ := ih (medias ++ p.edges) ms.1 ms.2 (by rw [hgo])
        simp only [pageBreak, Bool.or_eq_true, Bool.not_eq_true',
          decide_eq_true_eq, not_or, Bool.not_eq_false, Nat.not_le] at hb
        obtain ⟨hnext, hlen⟩ := hb
        subst hm
        subst hs
        refine ⟨by simp [List.length_cons]; omega, ?_, ?_, ?_⟩
        · rw [ih2, List.take_succ_cons]
          simp only [flatEdges]
          rw [List.append_assoc]
        · intro j hj
          cases j with
          | zero =>
            constructor
            · simpa [flatEdges] using hlen
            · simp [hnext]
          | succ j' =>
            have hj' : j' < ms.2 := by omega
            obtain ⟨hlt, hnx⟩ := ih3 j' hj'
            constructor
            · rw [List.take_succ_cons]
              simp only [flatEdges]
              rw [← List.append_assoc]
              exact hlt
            · simpa using hnx
        · simpa using ih4

/-- C7: whenever `hashtag_feed` returns, having slept `s` times between
pages, it consumed exactly pages `0..s`, stopped at the first page at which
no next page was reported or at least `count` edges had been collected
(every earlier page had a next page and left the total below `count`), and
returned the concatenated edges of the consumed pages truncated to at most
`count` items. -/
theorem C7_hashtag_feed_pagination (pages : List HashtagPage) (count : Nat)
    (m : List String) (s : Nat) (h : hashtag_feed pages count = some (m, s)) :
    m = (flatEdges (pages.take (s + 1))).take count
      ∧ s < pages.length
      ∧ (∀ j, j < s → (flatEdges (pages.take (j + 1))).length < count
            ∧ (pages.get? j).map HashtagPage.has_next_page = some true)
      ∧ ((pages.get? s).map HashtagPage.has_next_page = some false
          ∨ count ≤ (flatEdges (pages.take (s + 1))).length) := by
  unfold hashtag_feed at h
  cases hgo : hashtag_feed_go pages count [] 0 with
  | none => rw [hgo] at h; simp at h
  | some ms =>
    rw [hgo] at h
    simp only [Option.map_some', Option.some.injEq, Prod.mk.injEq] at h
    obtain ⟨hm, hs⟩ := h
    obtain ⟨h1, h2, h3, h4⟩ := hashtag_feed_go_spec pages count [] ms.1 ms.2 hgo
    simp only [List.nil_append] at h2 h3
    subst hs
    refine ⟨by rw [← hm, h2], h1, h3, ?_⟩
    rcases h4 with h4 | h4
    · exact Or.inl h4
    · exact Or.inr (by rw [← h2]; exact h4)

/-- The two-page scenario of the spec: 8 edges with a next page, then 5
edges without one. -/
def pagesC7 : List HashtagPage :=
  [{ edges := ["m1", "m2", "m3", "m4", "m5", "m6", "m7", "m8"]
     end_cursor := some "cursorA"
     has_next_page := true },
   { edges := ["m9", "m10", "m11", "m12", "m13"]
     end_cursor := none
     has_next_page := false }]

/-- C7 witness: with `count = 10` against the two-page scenario,
`hashtag_feed` returns exactly 10 edges (truncated from 13) after exactly
one between-page sleep, and that result is the truncated concatenation of
the two consumed pages. -/
theorem C7_hashtag_feed_pagination_witness :
    hashtag_feed pagesC7 10
        = some (["m1", "m2", "m3", "m4", "m5", "m6", "m7", "m8", "m9", "m10"], 1)
      ∧ (["m1", "m2", "m3", "m4", "m5", "m6", "m7", "m8", "m9", "m10"] : List String)
        = (flatEdges (pagesC7.take 2)).take 10 :=
  ⟨by decide,
   (C7_hashtag_feed_pagination pagesC7 10
      ["m1", "m2", "m3", "m4", "m5", "m6", "m7", "m8", "m9", "m10"] 1 (by decide)).1⟩

end Instagrapi
